import Mathlib

/-!
Shallow embedding of the loans-app notification service core:
the `EmailNotification` entity and its lifecycle transitions
(`src/domain/entities/email-notification.ts`), the email template
selector (`app/email-templates.ts`), and the delivery orchestrator
`sendReservationEmail` (`app/send-reservation-email.ts`).

Modelling conventions:
- TypeScript `Date` values are modelled as `Nat` timestamps; each
  `new Date()` call site becomes an explicit time parameter.
- `new Date().getFullYear()` inside the templates becomes an explicit
  `year : Nat` parameter threaded through the template functions.
- Optional TS fields (`field?: T`) become `Option T`.
- Functions that `throw` become `Except`-valued functions.
- The orchestrator's effects on its collaborators (repo saves, email
  sends) are recorded in an explicit effect trace; the repo's `save`
  (which in TS resolves to the persisted entity) is a parameter
  `save : EmailNotification → EmailNotification`, and the email
  transport's resolved value is a parameter `sendResult`.
-/

/-- The `NotificationStatus` enum from email-notification.ts. -/
inductive NotificationStatus where
  | Pending
  | Sent
  | Failed
deriving DecidableEq, Repr

/-- The `NotificationType` enum from email-notification.ts. -/
inductive NotificationType where
  | ReservationCreated
  | ReservationCollected
  | ReservationReturned
  | ReservationCancelled
  | ReservationExpired
  | ReservationOverdue
deriving DecidableEq, Repr

/-- The `EmailNotification` entity (email-notification.ts). -/
structure EmailNotification where
  id : String
  userId : String
  userEmail : String
  type : NotificationType
  subject : String
  htmlBody : String
  textBody : Option String
  status : NotificationStatus
  reservationId : String
  createdAt : Nat
  sentAt : Option Nat
  failureReason : Option String
  retryCount : Nat
  updatedAt : Nat
deriving DecidableEq, Repr

/-- The `CreateEmailNotificationParams` record (email-notification.ts). -/
structure CreateEmailNotificationParams where
  id : String
  userId : String
  userEmail : String
  type : NotificationType
  subject : String
  htmlBody : String
  textBody : Option String
  reservationId : String
deriving DecidableEq, Repr

/-- The `NotificationError` class (email-notification.ts): an error carrying the
offending field name and a message. -/
structure NotificationError where
  field : String
  message : String
deriving DecidableEq, Repr

/-- Model of JS `String.prototype.trim`: drop whitespace characters from
both ends of the string. -/
def jsTrim (s : String) : String :=
  ⟨((s.toList.dropWhile Char.isWhitespace).reverse.dropWhile
      Char.isWhitespace).reverse⟩

/-- Model of JS `String.prototype.toLowerCase` (the emails here are
ASCII): lower-case every character. -/
def jsToLower (s : String) : String :=
  ⟨s.toList.map Char.toLower⟩

/-- Test of the regex `/^[^\s@]+@[^\s@]+\.[^\s@]+$/` from
`validateCreateEmailNotification`.  A string matches iff it can be split
as `a ++ "@" ++ b ++ "." ++ c` with `a`, `b`, `c` nonempty and free of
whitespace and `@`.  Since every character outside the single literal `@`
must come from `[^\s@]`, this is equivalent to: no whitespace anywhere,
exactly one `@`, a nonempty part before the `@`, and a `.` strictly
inside the part after the `@` (neither its first nor its last
character).  In the last conjunct, `dropWhile` yields `'@' :: d` where
`d` is the part after the `@`, so `tail.tail.dropLast` is `d` without
its first and last characters. -/
def emailRegexTest (s : String) : Bool :=
  let cs := s.toList
  cs.all (fun c => !c.isWhitespace) &&
  cs.count '@' == 1 &&
  !(cs.takeWhile (· != '@')).isEmpty &&
  (cs.dropWhile (· != '@')).tail.tail.dropLast.contains '.'

/-- Function `validateCreateEmailNotification` (email-notification.ts): checks the
fields in source order and throws a `NotificationError` naming the first
invalid field.  The TS `typeof p.x !== 'string'` guards are vacuous in
this typed model; `!p.x` on a string is true exactly for `""`, which is
subsumed by the `trim() === ''` check.  The TS
`Object.values(NotificationType).includes(params.type)` check is always
true for a value of the closed enum, so it never throws here. -/
def validateCreateEmailNotification (params : CreateEmailNotificationParams) :
    Except NotificationError Unit :=
  if jsTrim params.id = "" then
    .error ⟨"id", "Notification id must be a non-empty string."⟩
  else if jsTrim params.userId = "" then
    .error ⟨"userId", "Notification userId must be a non-empty string."⟩
  else if jsTrim params.userEmail = "" then
    .error ⟨"userEmail", "Notification userEmail must be a non-empty string."⟩
  else if !emailRegexTest (jsTrim params.userEmail) then
    .error ⟨"userEmail", "Notification userEmail must be a valid email address."⟩
  else if jsTrim params.subject = "" then
    .error ⟨"subject", "Notification subject must be a non-empty string."⟩
  else if jsTrim params.htmlBody = "" then
    .error ⟨"htmlBody", "Notification htmlBody must be a non-empty string."⟩
  else if jsTrim params.reservationId = "" then
    .error ⟨"reservationId", "Notification reservationId must be a non-empty string."⟩
  else
    .ok ()

/-- Function `createEmailNotification` (email-notification.ts): validates, then
builds the entity with status Pending, retryCount 0 and
createdAt = updatedAt = `now` (the single `new Date()` call). -/
def createEmailNotification (params : CreateEmailNotificationParams) (now : Nat) :
    Except NotificationError EmailNotification :=
  match validateCreateEmailNotification params with
  | .error e => .error e
  | .ok () => .ok {
    id := jsTrim params.id
    userId := jsTrim params.userId
    userEmail := jsToLower (jsTrim params.userEmail)
    type := params.type
    subject := jsTrim params.subject
    htmlBody := params.htmlBody
    textBody := params.textBody.map jsTrim
    status := .Pending
    reservationId := jsTrim params.reservationId
    createdAt := now
    sentAt := none
    failureReason := none
    retryCount := 0
    updatedAt := now
  }

/-- Function `markNotificationSent` (email-notification.ts): spread of the input
with status Sent and sentAt = updatedAt = `now`. -/
def markNotificationSent (notification : EmailNotification) (now : Nat) :
    EmailNotification :=
  { notification with
    status := .Sent
    sentAt := some now
    updatedAt := now }

/-- Function `markNotificationFailed` (email-notification.ts): spread of the input
with status Failed, the given failureReason, retryCount incremented and
updatedAt = `now`. -/
def markNotificationFailed (notification : EmailNotification) (reason : String)
    (now : Nat) : EmailNotification :=
  { notification with
    status := .Failed
    failureReason := some reason
    retryCount := notification.retryCount + 1
    updatedAt := now }

example : emailRegexTest "a@b.com" = true := by decide
example : emailRegexTest "not-an-email" = false := by decide
example : emailRegexTest ".@x" = false := by decide
example : emailRegexTest "a@.com" = false := by decide
example : emailRegexTest "a@b." = false := by decide
example : emailRegexTest "a@b.c" = true := by decide
example : emailRegexTest "a@@b.c" = false := by decide
example : emailRegexTest "a b@c.d" = false := by decide

/-- The `ReservationEmailData` record (email-templates.ts). -/
structure ReservationEmailData where
  userEmail : String
  reservationId : String
  deviceName : Option String
  reservedAt : Option String
  expiresAt : Option String
  collectedAt : Option String
  returnDueAt : Option String
  returnedAt : Option String
deriving DecidableEq, Repr

/-- The `EmailTemplate` record (email-templates.ts): subject plus HTML and plain-text
bodies. -/
structure EmailTemplate where
  subject : String
  htmlBody : String
  textBody : String
deriving DecidableEq, Repr

def APP_NAME : String := "Device Loan System"

def SUPPORT_EMAIL : String := "support@deviceloan.edu"

/-- Model of the TS template-literal fragment
`${v ? `pre${v}post` : ''}`: the segment renders only when `v` is
truthy, i.e. present and non-empty (the empty string is falsy in JS). -/
def jsCondSeg (v : Option String) (pre post : String) : String :=
  match v with
  | some x => if x = "" then "" else pre ++ x ++ post
  | none => ""

/-- Function `getReservationCreatedEmail` (email-templates.ts).  `year`
models the `new Date().getFullYear()` read in the copyright line. -/
def getReservationCreatedEmail (year : Nat) (data : ReservationEmailData) :
    EmailTemplate :=
  let subject := APP_NAME ++ " - Your reservation is confirmed"
  let htmlBody := "
<!DOCTYPE html>
<html>
<head>
  <style>
    body \x7b font-family: Arial, sans-serif; line-height: 1.6; color: #333; \x7d
    .container \x7b max-width: 600px; margin: 0 auto; padding: 20px; \x7d
    .header \x7b background-color: #4F46E5; color: white; padding: 20px; text-align: center; \x7d
    .content \x7b padding: 20px; background-color: #f9fafb; \x7d
    .footer \x7b padding: 20px; text-align: center; font-size: 12px; color: #666; \x7d
    .highlight \x7b background-color: #EEF2FF; padding: 15px; border-radius: 8px; margin: 15px 0; \x7d
    .btn \x7b display: inline-block; background-color: #4F46E5; color: white; padding: 12px 24px; text-decoration: none; border-radius: 6px; \x7d
  </style>
</head>
<body>
  <div class=\"container\">
    <div class=\"header\">
      <h1>" ++ APP_NAME ++ "</h1>
    </div>
    <div class=\"content\">
      <h2>Reservation Confirmed! 🎉</h2>
      <p>Your device reservation has been successfully created.</p>
      
      <div class=\"highlight\">
        <p><strong>Reservation ID:</strong> " ++ data.reservationId ++ "</p>
        " ++ jsCondSeg data.deviceName "<p><strong>Device:</strong> " "</p>" ++ "
        " ++ jsCondSeg data.reservedAt "<p><strong>Reserved At:</strong> " "</p>" ++ "
        " ++ jsCondSeg data.expiresAt "<p><strong>Collection Deadline:</strong> " "</p>" ++ "
      </div>
      
      <p><strong>Important:</strong> Please collect your device within 24 hours, or your reservation will expire.</p>
      
      <p>Visit the IT desk to collect your device. Don\x27t forget to bring your student ID!</p>
    </div>
    <div class=\"footer\">
      <p>If you have any questions, please contact us at " ++ SUPPORT_EMAIL ++ "</p>
      <p>&copy; " ++ toString year ++ " " ++ APP_NAME ++ "</p>
    </div>
  </div>
</body>
</html>"
  let textBody := "
" ++ APP_NAME ++ " - Reservation Confirmed!

Your device reservation has been successfully created.

Reservation ID: " ++ data.reservationId ++ "
" ++ jsCondSeg data.deviceName "Device: " "" ++ "
" ++ jsCondSeg data.reservedAt "Reserved At: " "" ++ "
" ++ jsCondSeg data.expiresAt "Collection Deadline: " "" ++ "

Important: Please collect your device within 24 hours, or your reservation will expire.

Visit the IT desk to collect your device. Don\x27t forget to bring your student ID!

If you have any questions, please contact us at " ++ SUPPORT_EMAIL ++ "
"
  { subject := subject, htmlBody := htmlBody, textBody := textBody }

/-- Function `getReservationCollectedEmail` (email-templates.ts). -/
def getReservationCollectedEmail (year : Nat) (data : ReservationEmailData) :
    EmailTemplate :=
  let subject := APP_NAME ++ " - Device collected successfully"
  let htmlBody := "
<!DOCTYPE html>
<html>
<head>
  <style>
    body \x7b font-family: Arial, sans-serif; line-height: 1.6; color: #333; \x7d
    .container \x7b max-width: 600px; margin: 0 auto; padding: 20px; \x7d
    .header \x7b background-color: #059669; color: white; padding: 20px; text-align: center; \x7d
    .content \x7b padding: 20px; background-color: #f9fafb; \x7d
    .footer \x7b padding: 20px; text-align: center; font-size: 12px; color: #666; \x7d
    .highlight \x7b background-color: #ECFDF5; padding: 15px; border-radius: 8px; margin: 15px 0; \x7d
    .warning \x7b background-color: #FEF3C7; padding: 15px; border-radius: 8px; margin: 15px 0; \x7d
  </style>
</head>
<body>
  <div class=\"container\">
    <div class=\"header\">
      <h1>" ++ APP_NAME ++ "</h1>
    </div>
    <div class=\"content\">
      <h2>Device Collected ✅</h2>
      <p>You have successfully collected your reserved device.</p>
      
      <div class=\"highlight\">
        <p><strong>Reservation ID:</strong> " ++ data.reservationId ++ "</p>
        " ++ jsCondSeg data.deviceName "<p><strong>Device:</strong> " "</p>" ++ "
        " ++ jsCondSeg data.collectedAt "<p><strong>Collected At:</strong> " "</p>" ++ "
        " ++ jsCondSeg data.returnDueAt "<p><strong>Return Due:</strong> " "</p>" ++ "
      </div>
      
      <div class=\"warning\">
        <p>⚠️ <strong>Remember:</strong> Please return the device by the due date to avoid late fees.</p>
      </div>
      
      <p>Take good care of the device and return it in the same condition you received it.</p>
    </div>
    <div class=\"footer\">
      <p>If you have any questions, please contact us at " ++ SUPPORT_EMAIL ++ "</p>
      <p>&copy; " ++ toString year ++ " " ++ APP_NAME ++ "</p>
    </div>
  </div>
</body>
</html>"
  let textBody := "
" ++ APP_NAME ++ " - Device Collected

You have successfully collected your reserved device.

Reservation ID: " ++ data.reservationId ++ "
" ++ jsCondSeg data.deviceName "Device: " "" ++ "
" ++ jsCondSeg data.collectedAt "Collected At: " "" ++ "
" ++ jsCondSeg data.returnDueAt "Return Due: " "" ++ "

Remember: Please return the device by the due date to avoid late fees.

Take good care of the device and return it in the same condition you received it.

If you have any questions, please contact us at " ++ SUPPORT_EMAIL ++ "
"
  { subject := subject, htmlBody := htmlBody, textBody := textBody }

/-- Function `getReservationReturnedEmail` (email-templates.ts). -/
def getReservationReturnedEmail (year : Nat) (data : ReservationEmailData) :
    EmailTemplate :=
  let subject := APP_NAME ++ " - Device returned - Thank you!"
  let htmlBody := "
<!DOCTYPE html>
<html>
<head>
  <style>
    body \x7b font-family: Arial, sans-serif; line-height: 1.6; color: #333; \x7d
    .container \x7b max-width: 600px; margin: 0 auto; padding: 20px; \x7d
    .header \x7b background-color: #2563EB; color: white; padding: 20px; text-align: center; \x7d
    .content \x7b padding: 20px; background-color: #f9fafb; \x7d
    .footer \x7b padding: 20px; text-align: center; font-size: 12px; color: #666; \x7d
    .highlight \x7b background-color: #EFF6FF; padding: 15px; border-radius: 8px; margin: 15px 0; \x7d
  </style>
</head>
<body>
  <div class=\"container\">
    <div class=\"header\">
      <h1>" ++ APP_NAME ++ "</h1>
    </div>
    <div class=\"content\">
      <h2>Device Returned 🙏</h2>
      <p>Thank you for returning your device!</p>
      
      <div class=\"highlight\">
        <p><strong>Reservation ID:</strong> " ++ data.reservationId ++ "</p>
        " ++ jsCondSeg data.deviceName "<p><strong>Device:</strong> " "</p>" ++ "
        " ++ jsCondSeg data.returnedAt "<p><strong>Returned At:</strong> " "</p>" ++ "
      </div>
      
      <p>Your loan has been completed. Feel free to reserve another device whenever you need one!</p>
    </div>
    <div class=\"footer\">
      <p>If you have any questions, please contact us at " ++ SUPPORT_EMAIL ++ "</p>
      <p>&copy; " ++ toString year ++ " " ++ APP_NAME ++ "</p>
    </div>
  </div>
</body>
</html>"
  let textBody := "
" ++ APP_NAME ++ " - Device Returned

Thank you for returning your device!

Reservation ID: " ++ data.reservationId ++ "
" ++ jsCondSeg data.deviceName "Device: " "" ++ "
" ++ jsCondSeg data.returnedAt "Returned At: " "" ++ "

Your loan has been completed. Feel free to reserve another device whenever you need one!

If you have any questions, please contact us at " ++ SUPPORT_EMAIL ++ "
"
  { subject := subject, htmlBody := htmlBody, textBody := textBody }

/-- Function `getReservationCancelledEmail` (email-templates.ts). -/
def getReservationCancelledEmail (year : Nat) (data : ReservationEmailData) :
    EmailTemplate :=
  let subject := APP_NAME ++ " - Reservation cancelled"
  let htmlBody := "
<!DOCTYPE html>
<html>
<head>
  <style>
    body \x7b font-family: Arial, sans-serif; line-height: 1.6; color: #333; \x7d
    .container \x7b max-width: 600px; margin: 0 auto; padding: 20px; \x7d
    .header \x7b background-color: #6B7280; color: white; padding: 20px; text-align: center; \x7d
    .content \x7b padding: 20px; background-color: #f9fafb; \x7d
    .footer \x7b padding: 20px; text-align: center; font-size: 12px; color: #666; \x7d
    .highlight \x7b background-color: #F3F4F6; padding: 15px; border-radius: 8px; margin: 15px 0; \x7d
  </style>
</head>
<body>
  <div class=\"container\">
    <div class=\"header\">
      <h1>" ++ APP_NAME ++ "</h1>
    </div>
    <div class=\"content\">
      <h2>Reservation Cancelled</h2>
      <p>Your device reservation has been cancelled.</p>
      
      <div class=\"highlight\">
        <p><strong>Reservation ID:</strong> " ++ data.reservationId ++ "</p>
        " ++ jsCondSeg data.deviceName "<p><strong>Device:</strong> " "</p>" ++ "
      </div>
      
      <p>If this was a mistake or you need to reserve another device, you can create a new reservation anytime.</p>
    </div>
    <div class=\"footer\">
      <p>If you have any questions, please contact us at " ++ SUPPORT_EMAIL ++ "</p>
      <p>&copy; " ++ toString year ++ " " ++ APP_NAME ++ "</p>
    </div>
  </div>
</body>
</html>"
  let textBody := "
" ++ APP_NAME ++ " - Reservation Cancelled

Your device reservation has been cancelled.

Reservation ID: " ++ data.reservationId ++ "
" ++ jsCondSeg data.deviceName "Device: " "" ++ "

If this was a mistake or you need to reserve another device, you can create a new reservation anytime.

If you have any questions, please contact us at " ++ SUPPORT_EMAIL ++ "
"
  { subject := subject, htmlBody := htmlBody, textBody := textBody }

/-- Function `getReservationExpiredEmail` (email-templates.ts). -/
def getReservationExpiredEmail (year : Nat) (data : ReservationEmailData) :
    EmailTemplate :=
  let subject := APP_NAME ++ " - Reservation expired"
  let htmlBody := "
<!DOCTYPE html>
<html>
<head>
  <style>
    body \x7b font-family: Arial, sans-serif; line-height: 1.6; color: #333; \x7d
    .container \x7b max-width: 600px; margin: 0 auto; padding: 20px; \x7d
    .header \x7b background-color: #DC2626; color: white; padding: 20px; text-align: center; \x7d
    .content \x7b padding: 20px; background-color: #f9fafb; \x7d
    .footer \x7b padding: 20px; text-align: center; font-size: 12px; color: #666; \x7d
    .highlight \x7b background-color: #FEF2F2; padding: 15px; border-radius: 8px; margin: 15px 0; \x7d
  </style>
</head>
<body>
  <div class=\"container\">
    <div class=\"header\">
      <h1>" ++ APP_NAME ++ "</h1>
    </div>
    <div class=\"content\">
      <h2>Reservation Expired ⏰</h2>
      <p>Unfortunately, your device reservation has expired because it was not collected within the 24-hour window.</p>
      
      <div class=\"highlight\">
        <p><strong>Reservation ID:</strong> " ++ data.reservationId ++ "</p>
        " ++ jsCondSeg data.deviceName "<p><strong>Device:</strong> " "</p>" ++ "
        " ++ jsCondSeg data.expiresAt "<p><strong>Expired At:</strong> " "</p>" ++ "
      </div>
      
      <p>The device is now available for other students to reserve. If you still need the device, please create a new reservation.</p>
    </div>
    <div class=\"footer\">
      <p>If you have any questions, please contact us at " ++ SUPPORT_EMAIL ++ "</p>
      <p>&copy; " ++ toString year ++ " " ++ APP_NAME ++ "</p>
    </div>
  </div>
</body>
</html>"
  let textBody := "
" ++ APP_NAME ++ " - Reservation Expired

Unfortunately, your device reservation has expired because it was not collected within the 24-hour window.

Reservation ID: " ++ data.reservationId ++ "
" ++ jsCondSeg data.deviceName "Device: " "" ++ "
" ++ jsCondSeg data.expiresAt "Expired At: " "" ++ "

The device is now available for other students to reserve. If you still need the device, please create a new reservation.

If you have any questions, please contact us at " ++ SUPPORT_EMAIL ++ "
"
  { subject := subject, htmlBody := htmlBody, textBody := textBody }

/-- Function `getReservationOverdueEmail` (email-templates.ts). -/
def getReservationOverdueEmail (year : Nat) (data : ReservationEmailData) :
    EmailTemplate :=
  let subject := APP_NAME ++ " - ⚠️ URGENT: Device return overdue"
  let htmlBody := "
<!DOCTYPE html>
<html>
<head>
  <style>
    body \x7b font-family: Arial, sans-serif; line-height: 1.6; color: #333; \x7d
    .container \x7b max-width: 600px; margin: 0 auto; padding: 20px; \x7d
    .header \x7b background-color: #DC2626; color: white; padding: 20px; text-align: center; \x7d
    .content \x7b padding: 20px; background-color: #f9fafb; \x7d
    .footer \x7b padding: 20px; text-align: center; font-size: 12px; color: #666; \x7d
    .highlight \x7b background-color: #FEF2F2; padding: 15px; border-radius: 8px; margin: 15px 0; border: 2px solid #DC2626; \x7d
  </style>
</head>
<body>
  <div class=\"container\">
    <div class=\"header\">
      <h1>⚠️ URGENT</h1>
    </div>
    <div class=\"content\">
      <h2>Device Return Overdue!</h2>
      <p>Your device loan is <strong>overdue</strong>. Please return the device as soon as possible.</p>
      
      <div class=\"highlight\">
        <p><strong>Reservation ID:</strong> " ++ data.reservationId ++ "</p>
        " ++ jsCondSeg data.deviceName "<p><strong>Device:</strong> " "</p>" ++ "
        " ++ jsCondSeg data.returnDueAt "<p><strong>Was Due:</strong> " "</p>" ++ "
      </div>
      
      <p><strong>Please return the device immediately to avoid any penalties.</strong></p>
      
      <p>If you are experiencing difficulties returning the device, please contact the IT desk immediately.</p>
    </div>
    <div class=\"footer\">
      <p>Contact us at " ++ SUPPORT_EMAIL ++ "</p>
      <p>&copy; " ++ toString year ++ " " ++ APP_NAME ++ "</p>
    </div>
  </div>
</body>
</html>"
  let textBody := "
" ++ APP_NAME ++ " - URGENT: Device Return Overdue!

Your device loan is OVERDUE. Please return the device as soon as possible.

Reservation ID: " ++ data.reservationId ++ "
" ++ jsCondSeg data.deviceName "Device: " "" ++ "
" ++ jsCondSeg data.returnDueAt "Was Due: " "" ++ "

Please return the device immediately to avoid any penalties.

If you are experiencing difficulties returning the device, please contact the IT desk immediately.

Contact us at " ++ SUPPORT_EMAIL ++ "
"
  { subject := subject, htmlBody := htmlBody, textBody := textBody }

/-- Function `getEmailTemplate` (email-templates.ts): dispatch on the
notification type.  The TS `default` branch (throw on unknown type) is
unreachable for values of the closed enum, so the match is total. -/
def getEmailTemplate (year : Nat) (type : NotificationType)
    (data : ReservationEmailData) : EmailTemplate :=
  match type with
  | .ReservationCreated => getReservationCreatedEmail year data
  | .ReservationCollected => getReservationCollectedEmail year data
  | .ReservationReturned => getReservationReturnedEmail year data
  | .ReservationCancelled => getReservationCancelledEmail year data
  | .ReservationExpired => getReservationExpiredEmail year data
  | .ReservationOverdue => getReservationOverdueEmail year data

/-- The `EmailSendResult` record (email-sender port): the value the email
transport resolves with. -/
structure EmailSendResult where
  success : Bool
  messageId : Option String
  error : Option String
deriving DecidableEq, Repr

/-- The `EmailContent` record (email-sender port): the payload handed to
`sendEmail`. -/
structure EmailContent where
  «to» : String
  subject : String
  htmlBody : String
  textBody : Option String
deriving DecidableEq, Repr

/-- The `ReservationEventData` record (send-reservation-email.ts). -/
structure ReservationEventData where
  reservationId : String
  userId : String
  userEmail : String
  deviceId : String
  deviceModelId : String
  deviceName : Option String
  reservedAt : Option String
  expiresAt : Option String
  collectedAt : Option String
  returnDueAt : Option String
  returnedAt : Option String
  cancelledAt : Option String
deriving DecidableEq, Repr

/-- The `SendReservationEmailResult` record (send-reservation-email.ts). -/
structure SendReservationEmailResult where
  success : Bool
  notification : Option EmailNotification
  error : Option String
deriving DecidableEq, Repr

/-- One observable effect of the orchestrator on its collaborators: a
`notificationRepo.save` call (recording the entity passed to it) or an
`emailSender.sendEmail` call (recording the content passed to it). -/
inductive OrchestratorEffect where
  | save (n : EmailNotification)
  | send (c : EmailContent)
deriving DecidableEq, Repr

/-- Model of the TS expression `v || dflt` on an optional string: JS
falls back to the default when `v` is `undefined` or the (falsy) empty
string. -/
def jsOrDefault (v : Option String) (dflt : String) : String :=
  match v with
  | some x => if x = "" then dflt else x
  | none => dflt

/-- The `templateData` local of `sendReservationEmail`
(send-reservation-email.ts): the event fields forwarded to the template
selector. -/
def sendReservationEmailTemplateData (eventData : ReservationEventData) :
    ReservationEmailData := {
  userEmail := eventData.userEmail
  reservationId := eventData.reservationId
  deviceName := eventData.deviceName
  reservedAt := eventData.reservedAt
  expiresAt := eventData.expiresAt
  collectedAt := eventData.collectedAt
  returnDueAt := eventData.returnDueAt
  returnedAt := eventData.returnedAt }

/-- The argument record `sendReservationEmail` passes to
`createEmailNotification`: `uuid` stands for the `randomUUID()` call and
`year` for the templates' `getFullYear()` read. -/
def sendReservationEmailCreateParams (uuid : String) (year : Nat)
    (eventType : NotificationType) (eventData : ReservationEventData) :
    CreateEmailNotificationParams :=
  let template := getEmailTemplate year eventType
    (sendReservationEmailTemplateData eventData)
  { id := uuid
    userId := eventData.userId
    userEmail := eventData.userEmail
    type := eventType
    subject := template.subject
    htmlBody := template.htmlBody
    textBody := some template.textBody
    reservationId := eventData.reservationId }

/-- The content record `sendReservationEmail` passes to
`emailSender.sendEmail`. -/
def sendReservationEmailContent (year : Nat) (eventType : NotificationType)
    (eventData : ReservationEventData) : EmailContent :=
  let template := getEmailTemplate year eventType
    (sendReservationEmailTemplateData eventData)
  { «to» := eventData.userEmail
    subject := template.subject
    htmlBody := template.htmlBody
    textBody := some template.textBody }

/-- Function `sendReservationEmail` (send-reservation-email.ts), with its
impure ingredients made explicit: `uuid` is the `randomUUID()` value,
`year` the templates' `getFullYear()` read, `tCreate` and `tFinal` the
`new Date()` reads inside `createEmailNotification` and inside
`markNotificationSent`/`markNotificationFailed`, `save` the repo's
(resolving) save, and `sendResult` the transport's resolved value.
Returns the TS result together with the trace of collaborator calls, in
order.  The `catch` branch is reachable here only via the
`NotificationError` thrown by `createEmailNotification`; it returns the
error's message and no notification, with no collaborator ever called. -/
def sendReservationEmail (uuid : String) (year tCreate tFinal : Nat)
    (save : EmailNotification → EmailNotification)
    (sendResult : EmailSendResult)
    (eventType : NotificationType) (eventData : ReservationEventData) :
    SendReservationEmailResult × List OrchestratorEffect :=
  match createEmailNotification
      (sendReservationEmailCreateParams uuid year eventType eventData) tCreate with
  | .error e =>
    ({ success := false, notification := none, error := some e.message }, [])
  | .ok created =>
    let notification := save created
    let content := sendReservationEmailContent year eventType eventData
    if sendResult.success then
      let sent := markNotificationSent notification tFinal
      let final := save sent
      ({ success := true, notification := some final, error := none },
       [.save created, .send content, .save sent])
    else
      let failed := markNotificationFailed notification
        (jsOrDefault sendResult.error "Unknown error") tFinal
      let final := save failed
      ({ success := false, notification := some final, error := sendResult.error },
       [.save created, .send content, .save failed])

/-- Event data of the spec scenarios: reservationId R1, user U1 with
email a@b.com, every optional field absent (the unused mandatory device
ids are empty strings). -/
def sampleEventData : ReservationEventData := {
  reservationId := "R1"
  userId := "U1"
  userEmail := "a@b.com"
  deviceId := ""
  deviceModelId := ""
  deviceName := none
  reservedAt := none
  expiresAt := none
  collectedAt := none
  returnDueAt := none
  returnedAt := none
  cancelledAt := none }


/-- Characterisation of an empty trim result: the string is all
whitespace. -/
theorem jsTrim_eq_empty_iff (s : String) :
    jsTrim s = "" ↔ ∀ c ∈ s.toList, c.isWhitespace := by
  unfold jsTrim
  constructor
  · intro h c hc
    have h' : ((s.toList.dropWhile Char.isWhitespace).reverse.dropWhile
        Char.isWhitespace).reverse = [] := congrArg String.data h
    rw [List.reverse_eq_nil_iff, List.dropWhile_eq_nil_iff] at h'
    have h2 : ∀ x ∈ s.toList.dropWhile Char.isWhitespace, x.isWhitespace :=
      fun x hx => h' x (List.mem_reverse.mpr hx)
    have hc' : c ∈ s.toList.takeWhile Char.isWhitespace ++
        s.toList.dropWhile Char.isWhitespace := by
      rw [List.takeWhile_append_dropWhile]; exact hc
    rcases List.mem_append.mp hc' with h3 | h3
    · exact List.mem_takeWhile_imp h3
    · exact h2 c h3
  · intro h
    have h1 : s.toList.dropWhile Char.isWhitespace = [] :=
      List.dropWhile_eq_nil_iff.mpr h
    rw [h1]
    rfl

/-- Concatenation on the character-list view of strings. -/
theorem toList_append_eq (a b : String) :
    (a ++ b).toList = a.toList ++ b.toList := by
  cases a; cases b; rfl

/-- A concatenation whose left part does not trim to empty does not trim
to empty either. -/
theorem jsTrim_append_ne_left (a b : String) (h : jsTrim a ≠ "") :
    jsTrim (a ++ b) ≠ "" := by
  intro hab
  apply h
  rw [jsTrim_eq_empty_iff] at hab ⊢
  intro c hc
  exact hab c (by rw [toList_append_eq]; exact List.mem_append_left _ hc)

/-- Inversion for a successful `createEmailNotification`: the fresh
notification is Pending with zero retries, creation and update time
`now`, and no sentAt or failureReason. -/
theorem createEmailNotification_ok_inv {params : CreateEmailNotificationParams}
    {now : Nat} {n : EmailNotification}
    (h : createEmailNotification params now = .ok n) :
    n.status = .Pending ∧ n.retryCount = 0 ∧ n.createdAt = now ∧
    n.updatedAt = now ∧ n.sentAt = none ∧ n.failureReason = none := by
  unfold createEmailNotification at h
  cases hv : validateCreateEmailNotification params with
  | error e => rw [hv] at h; exact Except.noConfusion h
  | ok u =>
    cases u
    rw [hv] at h
    injection h with h'
    subst h'
    exact ⟨rfl, rfl, rfl, rfl, rfl, rfl⟩

/-- Concrete valid construction params used by witnesses; the email has
surrounding whitespace and an upper-case letter to exercise the
normalisation. -/
def sampleParams : CreateEmailNotificationParams := {
  id := "n1"
  userId := "U1"
  userEmail := " A@b.com "
  type := .ReservationCreated
  subject := "Subject"
  htmlBody := "<p>Hi</p>"
  textBody := none
  reservationId := "R1" }

/-- A successful validation forces `createEmailNotification` to return
the fully normalised entity. -/
theorem createEmailNotification_ok_of_validate
    (params : CreateEmailNotificationParams) (now : Nat)
    (h : validateCreateEmailNotification params = .ok ()) :
    createEmailNotification params now = .ok {
      id := jsTrim params.id
      userId := jsTrim params.userId
      userEmail := jsToLower (jsTrim params.userEmail)
      type := params.type
      subject := jsTrim params.subject
      htmlBody := params.htmlBody
      textBody := params.textBody.map jsTrim
      status := .Pending
      reservationId := jsTrim params.reservationId
      createdAt := now
      sentAt := none
      failureReason := none
      retryCount := 0
      updatedAt := now } := by
  unfold createEmailNotification
  rw [h]

/-- C4: for all construction params satisfying the validity invariants,
`createEmailNotification` returns a notification with status Pending,
retryCount 0, createdAt equal to updatedAt, and userEmail equal to the
input email trimmed and lower-cased. -/
theorem createEmailNotification_valid_defaults
    (params : CreateEmailNotificationParams) (now : Nat)
    (h : validateCreateEmailNotification params = .ok ()) :
    ∃ n, createEmailNotification params now = .ok n ∧
      n.status = .Pending ∧ n.retryCount = 0 ∧ n.createdAt = n.updatedAt ∧
      n.userEmail = jsToLower (jsTrim params.userEmail) :=
  ⟨_, createEmailNotification_ok_of_validate params now h, rfl, rfl, rfl, rfl⟩

/-- Witness for C4 at concrete valid params. -/
theorem createEmailNotification_valid_defaults_witness :
    validateCreateEmailNotification sampleParams = .ok () ∧
    ∃ n, createEmailNotification sampleParams 5 = .ok n ∧
      n.status = .Pending ∧ n.retryCount = 0 ∧ n.createdAt = n.updatedAt ∧
      n.userEmail = jsToLower (jsTrim sampleParams.userEmail) :=
  ⟨by rfl, createEmailNotification_valid_defaults sampleParams 5 (by rfl)⟩

/-- The field reported by `validateCreateEmailNotification`, if any. -/
def validationErrorField (params : CreateEmailNotificationParams) :
    Option String :=
  match validateCreateEmailNotification params with
  | .ok () => none
  | .error e => some e.field

/-- Modelled from the spec: the first invalid field under the spec's
check order id, userId, userEmail (non-empty), userEmail (format),
subject, htmlBody, reservationId, type.  For a value of the closed
`NotificationType` enum the final `type` membership check ("type is one
of the recognized notification types") always passes, so it reports no
field here. -/
def specFirstInvalidField (params : CreateEmailNotificationParams) :
    Option String :=
  if jsTrim params.id = "" then some "id"
  else if jsTrim params.userId = "" then some "userId"
  else if jsTrim params.userEmail = "" then some "userEmail"
  else if !emailRegexTest (jsTrim params.userEmail) then some "userEmail"
  else if jsTrim params.subject = "" then some "subject"
  else if jsTrim params.htmlBody = "" then some "htmlBody"
  else if jsTrim params.reservationId = "" then some "reservationId"
  else none

/-- C5: `createEmailNotification`'s validation reports exactly the first
invalid field in the spec's check order, and succeeds iff every check
passes (equivalently, iff no field is invalid). -/
theorem validateCreateEmailNotification_first_invalid
    (params : CreateEmailNotificationParams) :
    validationErrorField params = specFirstInvalidField params ∧
    (validateCreateEmailNotification params = .ok () ↔
      specFirstInvalidField params = none) := by
  unfold validationErrorField specFirstInvalidField
    validateCreateEmailNotification
  constructor
  · split_ifs <;> rfl
  · split_ifs <;> simp

/-- Repeated `markNotificationFailed`: one application per
(reason, time) pair, left to right. -/
def markFailedChain (n : EmailNotification) :
    List (String × Nat) → EmailNotification
  | [] => n
  | (r, t) :: rest => markFailedChain (markNotificationFailed n r t) rest

/-- Each chain step adds exactly one to the retry count. -/
theorem markFailedChain_retryCount (n : EmailNotification)
    (steps : List (String × Nat)) :
    (markFailedChain n steps).retryCount = n.retryCount + steps.length := by
  induction steps generalizing n with
  | nil => rfl
  | cons s rest ih =>
    cases s with
    | mk r t =>
      rw [markFailedChain, ih]
      simp [markNotificationFailed]
      omega

/-- C7: starting from a freshly created notification, k applications of
`markNotificationFailed` yield retryCount = k; each single application
increments retryCount by exactly 1, and `markNotificationSent` (the only
other transition) leaves it at 0. -/
theorem markNotificationFailed_retry_chain
    (params : CreateEmailNotificationParams) (now : Nat)
    (n : EmailNotification) (steps : List (String × Nat))
    (h : createEmailNotification params now = .ok n) :
    n.retryCount = 0 ∧
    (markFailedChain n steps).retryCount = steps.length ∧
    (∀ m r t, (markNotificationFailed m r t).retryCount = m.retryCount + 1) ∧
    (∀ m t, (markNotificationSent m t).retryCount = m.retryCount) := by
  have h0 : n.retryCount = 0 := (createEmailNotification_ok_inv h).2.1
  refine ⟨h0, ?_, fun m r t => rfl, fun m t => rfl⟩
  rw [markFailedChain_retryCount, h0, Nat.zero_add]

/-- Witness for C7: a fresh notification put through two failures has
retryCount 2. -/
theorem markNotificationFailed_retry_chain_witness :
    ∃ n, createEmailNotification sampleParams 5 = .ok n ∧
      n.retryCount = 0 ∧
      (markFailedChain n [("first failure", 6), ("second failure", 7)]).retryCount = 2 := by
  refine ⟨_, rfl, ?_, ?_⟩
  · exact (markNotificationFailed_retry_chain sampleParams 5 _ [] rfl).1
  · exact (markNotificationFailed_retry_chain sampleParams 5 _
      [("first failure", 6), ("second failure", 7)] rfl).2.1

/-- C8: for every template data record and every year, the six subjects
are exactly the fixed app-name-prefixed strings; the subject does not
depend on the data. -/
theorem getEmailTemplate_fixed_subjects (year : Nat)
    (data : ReservationEmailData) :
    (getEmailTemplate year .ReservationCreated data).subject =
      "Device Loan System - Your reservation is confirmed" ∧
    (getEmailTemplate year .ReservationCollected data).subject =
      "Device Loan System - Device collected successfully" ∧
    (getEmailTemplate year .ReservationReturned data).subject =
      "Device Loan System - Device returned - Thank you!" ∧
    (getEmailTemplate year .ReservationCancelled data).subject =
      "Device Loan System - Reservation cancelled" ∧
    (getEmailTemplate year .ReservationExpired data).subject =
      "Device Loan System - Reservation expired" ∧
    (getEmailTemplate year .ReservationOverdue data).subject =
      "Device Loan System - ⚠️ URGENT: Device return overdue" :=
  ⟨rfl, rfl, rfl, rfl, rfl, rfl⟩

/-- C10: `markNotificationSent` changes only status, sentAt and
updatedAt, and `markNotificationFailed` changes only status,
failureReason, retryCount and updatedAt; every other field — in
particular retryCount/failureReason for the former and sentAt/createdAt
for the latter — is unchanged. -/
theorem markNotification_frame_conditions (n : EmailNotification)
    (now : Nat) (reason : String) :
    ((markNotificationSent n now).id = n.id ∧
     (markNotificationSent n now).userId = n.userId ∧
     (markNotificationSent n now).userEmail = n.userEmail ∧
     (markNotificationSent n now).type = n.type ∧
     (markNotificationSent n now).subject = n.subject ∧
     (markNotificationSent n now).htmlBody = n.htmlBody ∧
     (markNotificationSent n now).textBody = n.textBody ∧
     (markNotificationSent n now).reservationId = n.reservationId ∧
     (markNotificationSent n now).createdAt = n.createdAt ∧
     (markNotificationSent n now).failureReason = n.failureReason ∧
     (markNotificationSent n now).retryCount = n.retryCount ∧
     (markNotificationSent n now).status = .Sent ∧
     (markNotificationSent n now).sentAt = some now ∧
     (markNotificationSent n now).updatedAt = now) ∧
    ((markNotificationFailed n reason now).id = n.id ∧
     (markNotificationFailed n reason now).userId = n.userId ∧
     (markNotificationFailed n reason now).userEmail = n.userEmail ∧
     (markNotificationFailed n reason now).type = n.type ∧
     (markNotificationFailed n reason now).subject = n.subject ∧
     (markNotificationFailed n reason now).htmlBody = n.htmlBody ∧
     (markNotificationFailed n reason now).textBody = n.textBody ∧
     (markNotificationFailed n reason now).reservationId = n.reservationId ∧
     (markNotificationFailed n reason now).createdAt = n.createdAt ∧
     (markNotificationFailed n reason now).sentAt = n.sentAt ∧
     (markNotificationFailed n reason now).status = .Failed ∧
     (markNotificationFailed n reason now).failureReason = some reason ∧
     (markNotificationFailed n reason now).retryCount = n.retryCount + 1 ∧
     (markNotificationFailed n reason now).updatedAt = now) :=
  ⟨⟨rfl, rfl, rfl, rfl, rfl, rfl, rfl, rfl, rfl, rfl, rfl, rfl, rfl, rfl⟩,
   ⟨rfl, rfl, rfl, rfl, rfl, rfl, rfl, rfl, rfl, rfl, rfl, rfl, rfl, rfl⟩⟩

/-- Unfolding of an orchestrator run whose creation step fails: the
caught error's message is returned and no collaborator is called. -/
theorem sendReservationEmail_create_error_run (uuid : String)
    (year tCreate tFinal : Nat) (save : EmailNotification → EmailNotification)
    (sendResult : EmailSendResult) (eventType : NotificationType)
    (eventData : ReservationEventData) (e : NotificationError)
    (hc : createEmailNotification
      (sendReservationEmailCreateParams uuid year eventType eventData) tCreate
      = .error e) :
    sendReservationEmail uuid year tCreate tFinal save sendResult
        eventType eventData =
      ({ success := false, notification := none, error := some e.message },
       []) := by
  unfold sendReservationEmail
  rw [hc]

/-- Unfolding of an orchestrator run with successful creation and a
successful transport result. -/
theorem sendReservationEmail_ok_success_run (uuid : String)
    (year tCreate tFinal : Nat) (save : EmailNotification → EmailNotification)
    (sendResult : EmailSendResult) (eventType : NotificationType)
    (eventData : ReservationEventData) (n : EmailNotification)
    (hc : createEmailNotification
      (sendReservationEmailCreateParams uuid year eventType eventData) tCreate
      = .ok n)
    (hs : sendResult.success = true) :
    sendReservationEmail uuid year tCreate tFinal save sendResult
        eventType eventData =
      ({ success := true,
         notification := some (save (markNotificationSent (save n) tFinal)),
         error := none },
       [.save n, .send (sendReservationEmailContent year eventType eventData),
        .save (markNotificationSent (save n) tFinal)]) := by
  unfold sendReservationEmail
  rw [hc]
  simp [hs]

/-- Unfolding of an orchestrator run with successful creation and a
failed transport result. -/
theorem sendReservationEmail_ok_failure_run (uuid : String)
    (year tCreate tFinal : Nat) (save : EmailNotification → EmailNotification)
    (sendResult : EmailSendResult) (eventType : NotificationType)
    (eventData : ReservationEventData) (n : EmailNotification)
    (hc : createEmailNotification
      (sendReservationEmailCreateParams uuid year eventType eventData) tCreate
      = .ok n)
    (hs : sendResult.success = false) :
    sendReservationEmail uuid year tCreate tFinal save sendResult
        eventType eventData =
      ({ success := false,
         notification := some (save (markNotificationFailed (save n)
           (jsOrDefault sendResult.error "Unknown error") tFinal)),
         error := sendResult.error },
       [.save n, .send (sendReservationEmailContent year eventType eventData),
        .save (markNotificationFailed (save n)
          (jsOrDefault sendResult.error "Unknown error") tFinal)]) := by
  unfold sendReservationEmail
  rw [hc]
  simp [hs]

/-- The notification created in the concrete scenario runs (uuid
"uuid-1", year 2025, creation time 10, sample event data); the fallback
branch of the match is unreachable because creation succeeds there. -/
def sampleCreated : EmailNotification :=
  match createEmailNotification
      (sendReservationEmailCreateParams "uuid-1" 2025 .ReservationCreated
        sampleEventData) 10 with
  | .ok n => n
  | .error _ =>
    ⟨"", "", "", .ReservationCreated, "", "", none, .Pending, "", 0,
     none, none, 0, 0⟩

set_option maxRecDepth 1000000 in
/-- Creation does succeed in the concrete scenario, yielding
`sampleCreated`. -/
theorem sampleCreated_spec :
    createEmailNotification
      (sendReservationEmailCreateParams "uuid-1" 2025 .ReservationCreated
        sampleEventData) 10 = .ok sampleCreated := by
  rfl

/-- C1 (amended): when creation succeeds, the store echoes what it is
given, and the transport resolves `{success:false, error: some e}` with
a NON-EMPTY error message `e`, the orchestrator transitions via
`markNotificationFailed` with `e`, persists that record, and returns
`{success:false, notification, error: some e}`; the persisted terminal
record has status Failed, failureReason `e` and retryCount 1.  The
amendment excludes the empty-string transport error, where the code
persists "Unknown error" instead of the transport's error (see the
counterexample). -/
theorem sendReservationEmail_transport_failure_persists_reason
    (uuid : String) (year tCreate tFinal : Nat) (msgId : Option String)
    (e : String) (eventType : NotificationType)
    (eventData : ReservationEventData) (n : EmailNotification)
    (hc : createEmailNotification
      (sendReservationEmailCreateParams uuid year eventType eventData) tCreate
      = .ok n)
    (he : e ≠ "") :
    sendReservationEmail uuid year tCreate tFinal id
        { success := false, messageId := msgId, error := some e }
        eventType eventData =
      ({ success := false,
         notification := some (markNotificationFailed n e tFinal),
         error := some e },
       [.save n, .send (sendReservationEmailContent year eventType eventData),
        .save (markNotificationFailed n e tFinal)]) ∧
    (markNotificationFailed n e tFinal).status = .Failed ∧
    (markNotificationFailed n e tFinal).failureReason = some e ∧
    (markNotificationFailed n e tFinal).retryCount = 1 := by
  have hj : jsOrDefault (some e) "Unknown error" = e := by
    show (if e = "" then "Unknown error" else e) = e
    rw [if_neg he]
  have hrun := sendReservationEmail_ok_failure_run uuid year tCreate tFinal id
    { success := false, messageId := msgId, error := some e }
    eventType eventData n hc rfl
  simp only [id_eq, hj] at hrun
  refine ⟨hrun, rfl, rfl, ?_⟩
  show n.retryCount + 1 = 1
  rw [(createEmailNotification_ok_inv hc).2.1]

set_option maxRecDepth 1000000 in
/-- Witness for C1 at the spec's "SMTP down" scenario. -/
theorem sendReservationEmail_transport_failure_persists_reason_witness :
    ("SMTP down" ≠ "") ∧
    (sendReservationEmail "uuid-1" 2025 10 20 id
        { success := false, messageId := none, error := some "SMTP down" }
        .ReservationCreated sampleEventData =
      ({ success := false,
         notification := some (markNotificationFailed sampleCreated "SMTP down" 20),
         error := some "SMTP down" },
       [.save sampleCreated,
        .send (sendReservationEmailContent 2025 .ReservationCreated sampleEventData),
        .save (markNotificationFailed sampleCreated "SMTP down" 20)]) ∧
      (markNotificationFailed sampleCreated "SMTP down" 20).status = .Failed ∧
      (markNotificationFailed sampleCreated "SMTP down" 20).failureReason =
        some "SMTP down" ∧
      (markNotificationFailed sampleCreated "SMTP down" 20).retryCount = 1) :=
  ⟨by decide,
   sendReservationEmail_transport_failure_persists_reason "uuid-1" 2025 10 20
     none "SMTP down" .ReservationCreated sampleEventData sampleCreated
     sampleCreated_spec (by decide)⟩

set_option maxRecDepth 1000000 in
/-- Counterexample to C1 as stated: at the (present but empty) transport
error "", the persisted record's failureReason is "Unknown error", not
the transport's error message. -/
theorem sendReservationEmail_transport_failure_empty_error_cex :
    (sendReservationEmail "uuid-1" 2025 10 20 id
      { success := false, messageId := none, error := some "" }
      .ReservationCreated sampleEventData).1.error = some "" ∧
    (sendReservationEmail "uuid-1" 2025 10 20 id
      { success := false, messageId := none, error := some "" }
      .ReservationCreated sampleEventData).1.notification =
      some (markNotificationFailed sampleCreated "Unknown error" 20) ∧
    (sendReservationEmail "uuid-1" 2025 10 20 id
      { success := false, messageId := none, error := some "" }
      .ReservationCreated sampleEventData).2.getLast? =
      some (.save (markNotificationFailed sampleCreated "Unknown error" 20)) ∧
    (markNotificationFailed sampleCreated "Unknown error" 20).failureReason =
      some "Unknown error" ∧
    ¬ (markNotificationFailed sampleCreated "Unknown error" 20).failureReason =
      some "" := by
  have hrun := sendReservationEmail_ok_failure_run "uuid-1" 2025 10 20 id
    { success := false, messageId := none, error := some "" }
    .ReservationCreated sampleEventData sampleCreated sampleCreated_spec rfl
  rw [hrun]
  exact ⟨rfl, rfl, rfl, rfl, by decide⟩

set_option maxRecDepth 1000000 in
/-- The reservation-created HTML body never trims to the empty string
(its first literal chunk contains non-whitespace markup), whatever the
data and year. -/
theorem reservationCreated_htmlBody_trim_ne (year : Nat)
    (data : ReservationEmailData) :
    jsTrim (getReservationCreatedEmail year data).htmlBody ≠ "" := by
  simp only [getReservationCreatedEmail]
  repeat apply jsTrim_append_ne_left
  decide

set_option maxRecDepth 1000000 in
/-- For the spec scenario's event data and any non-degenerate uuid, the
params the orchestrator passes to `createEmailNotification` validate
successfully, for every copyright year. -/
theorem validate_sampleEventData_ok (uuid : String) (year : Nat)
    (hu : jsTrim uuid ≠ "") :
    validateCreateEmailNotification
      (sendReservationEmailCreateParams uuid year .ReservationCreated
        sampleEventData) = .ok () := by
  unfold validateCreateEmailNotification
  simp only [sendReservationEmailCreateParams, sendReservationEmailTemplateData,
    sampleEventData, getEmailTemplate, getReservationCreatedEmail, jsCondSeg]
  split_ifs with h1 h2 h3 h4 h5 h6 h7
  · exact absurd h1 hu
  · exact absurd h2 (by decide)
  · exact absurd h3 (by decide)
  · exact absurd h4 (by decide)
  · exact absurd h5 (by decide)
  · refine absurd h6 ?_
    repeat apply jsTrim_append_ne_left
    decide
  · exact absurd h7 (by decide)
  · rfl

/-- C2: for the spec scenario input (type ReservationCreated, sample
event data), a transport that resolves with success and a store that
echoes saves, the orchestrator returns success with the notification and
the last persisted record is Sent with sentAt set and retryCount 0 —
for every uuid with a non-empty trim, year and pair of timestamps. -/
theorem sendReservationEmail_success_scenario (uuid : String)
    (year tCreate tFinal : Nat) (sendResult : EmailSendResult)
    (hu : jsTrim uuid ≠ "") (hs : sendResult.success = true) :
    ∃ n, createEmailNotification
        (sendReservationEmailCreateParams uuid year .ReservationCreated
          sampleEventData) tCreate = .ok n ∧
      sendReservationEmail uuid year tCreate tFinal id sendResult
          .ReservationCreated sampleEventData =
        ({ success := true,
           notification := some (markNotificationSent n tFinal),
           error := none },
         [.save n,
          .send (sendReservationEmailContent year .ReservationCreated
            sampleEventData),
          .save (markNotificationSent n tFinal)]) ∧
      (markNotificationSent n tFinal).status = .Sent ∧
      (markNotificationSent n tFinal).sentAt = some tFinal ∧
      (markNotificationSent n tFinal).retryCount = 0 := by
  have hv := validate_sampleEventData_ok uuid year hu
  have hc := createEmailNotification_ok_of_validate _ tCreate hv
  have hrun := sendReservationEmail_ok_success_run uuid year tCreate tFinal id
    sendResult .ReservationCreated sampleEventData _ hc hs
  simp only [id_eq] at hrun
  exact ⟨_, hc, hrun, rfl, rfl, rfl⟩

set_option maxRecDepth 1000000 in
/-- Witness for C2 at uuid "uuid-1", year 2025, times 10 and 20, and a
plainly successful transport result. -/
theorem sendReservationEmail_success_scenario_witness :
    (jsTrim "uuid-1" ≠ "") ∧
    ∃ n, createEmailNotification
        (sendReservationEmailCreateParams "uuid-1" 2025 .ReservationCreated
          sampleEventData) 10 = .ok n ∧
      sendReservationEmail "uuid-1" 2025 10 20 id
          { success := true, messageId := none, error := none }
          .ReservationCreated sampleEventData =
        ({ success := true,
           notification := some (markNotificationSent n 20),
           error := none },
         [.save n,
          .send (sendReservationEmailContent 2025 .ReservationCreated
            sampleEventData),
          .save (markNotificationSent n 20)]) ∧
      (markNotificationSent n 20).status = .Sent ∧
      (markNotificationSent n 20).sentAt = some 20 ∧
      (markNotificationSent n 20).retryCount = 0 :=
  ⟨by decide,
   sendReservationEmail_success_scenario "uuid-1" 2025 10 20
     { success := true, messageId := none, error := none } (by decide) rfl⟩

/-- C9: when creation succeeds and the transport fails with an absent or
empty error value, the persisted Failed record carries failureReason
"Unknown error" while the returned result carries the transport's
original error value — the two disagree in this edge case. -/
theorem sendReservationEmail_unknown_error_fallback (uuid : String)
    (year tCreate tFinal : Nat) (save : EmailNotification → EmailNotification)
    (msgId : Option String) (err : Option String)
    (eventType : NotificationType) (eventData : ReservationEventData)
    (n : EmailNotification)
    (hc : createEmailNotification
      (sendReservationEmailCreateParams uuid year eventType eventData) tCreate
      = .ok n)
    (herr : err = none ∨ err = some "") :
    (sendReservationEmail uuid year tCreate tFinal save
        { success := false, messageId := msgId, error := err }
        eventType eventData).2 =
      [.save n, .send (sendReservationEmailContent year eventType eventData),
       .save (markNotificationFailed (save n) "Unknown error" tFinal)] ∧
    (markNotificationFailed (save n) "Unknown error" tFinal).failureReason =
      some "Unknown error" ∧
    (sendReservationEmail uuid year tCreate tFinal save
        { success := false, messageId := msgId, error := err }
        eventType eventData).1.error = err ∧
    (sendReservationEmail uuid year tCreate tFinal save
        { success := false, messageId := msgId, error := err }
        eventType eventData).1.error ≠ some "Unknown error" := by
  have hj : jsOrDefault err "Unknown error" = "Unknown error" := by
    rcases herr with h | h <;> subst h <;> rfl
  have hrun := sendReservationEmail_ok_failure_run uuid year tCreate tFinal save
    { success := false, messageId := msgId, error := err }
    eventType eventData n hc rfl
  simp only [hj] at hrun
  rw [hrun]
  refine ⟨rfl, rfl, rfl, ?_⟩
  rcases herr with h | h <;> subst h <;> simp

set_option maxRecDepth 1000000 in
/-- Witness for C9 with an absent transport error. -/
theorem sendReservationEmail_unknown_error_fallback_witness :
    (createEmailNotification
      (sendReservationEmailCreateParams "uuid-1" 2025 .ReservationCreated
        sampleEventData) 10 = .ok sampleCreated) ∧
    ((sendReservationEmail "uuid-1" 2025 10 20 id
        { success := false, messageId := none, error := none }
        .ReservationCreated sampleEventData).2 =
      [.save sampleCreated,
       .send (sendReservationEmailContent 2025 .ReservationCreated
         sampleEventData),
       .save (markNotificationFailed sampleCreated "Unknown error" 20)] ∧
    (markNotificationFailed sampleCreated "Unknown error" 20).failureReason =
      some "Unknown error" ∧
    (sendReservationEmail "uuid-1" 2025 10 20 id
        { success := false, messageId := none, error := none }
        .ReservationCreated sampleEventData).1.error = none ∧
    (sendReservationEmail "uuid-1" 2025 10 20 id
        { success := false, messageId := none, error := none }
        .ReservationCreated sampleEventData).1.error ≠ some "Unknown error") :=
  ⟨sampleCreated_spec,
   sendReservationEmail_unknown_error_fallback "uuid-1" 2025 10 20 id none none
     .ReservationCreated sampleEventData sampleCreated sampleCreated_spec
     (Or.inl rfl)⟩

/-- Whether an orchestrator effect is an outbound email attempt. -/
def OrchestratorEffect.isSend : OrchestratorEffect → Bool
  | .send _ => true
  | .save _ => false

/-- Modelled from the spec sentence behind C3: the effect trace consists
of exactly one Pending save, followed by exactly one terminal (Sent or
Failed) save, followed by at most one outbound send attempt. -/
def specSideEffectShape (tr : List OrchestratorEffect) : Bool :=
  match tr with
  | .save p :: .save t :: rest =>
    p.status == .Pending &&
    (t.status == .Sent || t.status == .Failed) &&
    (rest.length == 0 || rest.length == 1) &&
    rest.all OrchestratorEffect.isSend
  | _ => false

set_option maxRecDepth 1000000 in
/-- Counterexample to C3 as stated: in a fully resolving run the send
happens between the two saves, so the trace never has the claimed shape
"Pending save, then terminal save, then at most one send". -/
theorem sendReservationEmail_effect_order_cex :
    (sendReservationEmail "uuid-1" 2025 10 20 id
      { success := true, messageId := none, error := none }
      .ReservationCreated sampleEventData).2 =
      [.save sampleCreated,
       .send (sendReservationEmailContent 2025 .ReservationCreated
         sampleEventData),
       .save (markNotificationSent sampleCreated 20)] ∧
    specSideEffectShape (sendReservationEmail "uuid-1" 2025 10 20 id
      { success := true, messageId := none, error := none }
      .ReservationCreated sampleEventData).2 = false := by
  have hrun := sendReservationEmail_ok_success_run "uuid-1" 2025 10 20 id
    { success := true, messageId := none, error := none }
    .ReservationCreated sampleEventData sampleCreated sampleCreated_spec rfl
  rw [hrun]
  exact ⟨rfl, rfl⟩

/-- C3 (amended): on every run in which creation succeeds (the model
covers exactly the runs where create, both saves and the transport
resolve), the side effects are exactly one Pending save, followed by
exactly one outbound send attempt, followed by exactly one terminal
(Sent or Failed) save — in particular at most one delivery attempt per
invocation.  The amendment moves the send attempt between the two
persisted writes, where the code performs it. -/
theorem sendReservationEmail_effect_trace (uuid : String)
    (year tCreate tFinal : Nat) (save : EmailNotification → EmailNotification)
    (sendResult : EmailSendResult) (eventType : NotificationType)
    (eventData : ReservationEventData) (n : EmailNotification)
    (hc : createEmailNotification
      (sendReservationEmailCreateParams uuid year eventType eventData) tCreate
      = .ok n) :
    ∃ t, (sendReservationEmail uuid year tCreate tFinal save sendResult
        eventType eventData).2 =
        [.save n,
         .send (sendReservationEmailContent year eventType eventData),
         .save t] ∧
      n.status = .Pending ∧
      (t.status = .Sent ∨ t.status = .Failed) ∧
      (sendReservationEmail uuid year tCreate tFinal save sendResult
        eventType eventData).2.countP
          (fun e => OrchestratorEffect.isSend e) ≤ 1 := by
  have hp : n.status = .Pending := (createEmailNotification_ok_inv hc).1
  cases hs : sendResult.success with
  | true =>
    have hrun := sendReservationEmail_ok_success_run uuid year tCreate tFinal
      save sendResult eventType eventData n hc hs
    refine ⟨markNotificationSent (save n) tFinal, ?_, hp, Or.inl rfl, ?_⟩
    · rw [hrun]
    · rw [hrun]
      simp [List.countP_cons, OrchestratorEffect.isSend]
  | false =>
    have hrun := sendReservationEmail_ok_failure_run uuid year tCreate tFinal
      save sendResult eventType eventData n hc hs
    refine ⟨markNotificationFailed (save n)
      (jsOrDefault sendResult.error "Unknown error") tFinal, ?_, hp,
      Or.inr rfl, ?_⟩
    · rw [hrun]
    · rw [hrun]
      simp [List.countP_cons, OrchestratorEffect.isSend]

set_option maxRecDepth 1000000 in
/-- Witness for C3 on a concrete successful run. -/
theorem sendReservationEmail_effect_trace_witness :
    ∃ t, (sendReservationEmail "uuid-1" 2025 10 20 id
        { success := true, messageId := none, error := none }
        .ReservationCreated sampleEventData).2 =
        [.save sampleCreated,
         .send (sendReservationEmailContent 2025 .ReservationCreated
           sampleEventData),
         .save t] ∧
      sampleCreated.status = .Pending ∧
      (t.status = .Sent ∨ t.status = .Failed) ∧
      (sendReservationEmail "uuid-1" 2025 10 20 id
        { success := true, messageId := none, error := none }
        .ReservationCreated sampleEventData).2.countP
          (fun e => OrchestratorEffect.isSend e) ≤ 1 :=
  sendReservationEmail_effect_trace "uuid-1" 2025 10 20 id
    { success := true, messageId := none, error := none }
    .ReservationCreated sampleEventData sampleCreated sampleCreated_spec

/-- Event data refuting C6 as stated: the userEmail fails the email
shape, but the userId is empty as well, so validation reports "userId"
first. -/
def badUserIdEventData : ReservationEventData :=
  { sampleEventData with userId := "", userEmail := "not-an-email" }

set_option maxRecDepth 1000000 in
/-- Counterexample to C6 as stated: with empty userId and userEmail
"not-an-email", creation fails with a ValidationError on field "userId",
not "userEmail" (userId is checked before userEmail). -/
theorem sendReservationEmail_invalid_email_cex :
    (∃ e, createEmailNotification
        (sendReservationEmailCreateParams "uuid-1" 2025 .ReservationCreated
          badUserIdEventData) 10 = .error e ∧
      e.field = "userId" ∧ ¬ e.field = "userEmail") ∧
    (sendReservationEmail "uuid-1" 2025 10 20 id
      { success := true, messageId := none, error := none }
      .ReservationCreated badUserIdEventData).1.success = false := by
  refine ⟨⟨⟨"userId", "Notification userId must be a non-empty string."⟩,
    ?_, rfl, by decide⟩, ?_⟩
  · rfl
  · rfl

/-- C6 (amended): on every run whose uuid and userId have non-empty
trims and whose userEmail is "not-an-email", creation fails with a
ValidationError on field "userEmail", the orchestrator returns failure
carrying that error's message and no notification, and no store save or
email send is ever invoked (the effect trace is empty, so the store
state is unchanged).  The amendment adds the non-degeneracy of the two
fields checked before userEmail; the real uuid is a `randomUUID()` and
is never empty. -/
theorem sendReservationEmail_invalid_email_no_persist (uuid : String)
    (year tCreate tFinal : Nat)
    (save : EmailNotification → EmailNotification)
    (sendResult : EmailSendResult) (eventType : NotificationType)
    (eventData : ReservationEventData)
    (hu : jsTrim uuid ≠ "") (hid : jsTrim eventData.userId ≠ "")
    (he : eventData.userEmail = "not-an-email") :
    createEmailNotification
      (sendReservationEmailCreateParams uuid year eventType eventData) tCreate
      = .error ⟨"userEmail",
          "Notification userEmail must be a valid email address."⟩ ∧
    sendReservationEmail uuid year tCreate tFinal save sendResult
        eventType eventData =
      ({ success := false, notification := none,
         error := some "Notification userEmail must be a valid email address." },
       []) := by
  have hval : validateCreateEmailNotification
      (sendReservationEmailCreateParams uuid year eventType eventData)
      = .error ⟨"userEmail",
          "Notification userEmail must be a valid email address."⟩ := by
    unfold validateCreateEmailNotification
    simp only [sendReservationEmailCreateParams]
    rw [he]
    rw [if_neg hu, if_neg hid]
    rw [if_neg (by decide : ¬ (jsTrim "not-an-email" = ""))]
    rw [if_pos (by decide :
      (!emailRegexTest (jsTrim "not-an-email")) = true)]
  have hcreate : createEmailNotification
      (sendReservationEmailCreateParams uuid year eventType eventData) tCreate
      = .error ⟨"userEmail",
          "Notification userEmail must be a valid email address."⟩ := by
    unfold createEmailNotification
    rw [hval]
  exact ⟨hcreate,
    sendReservationEmail_create_error_run uuid year tCreate tFinal save
      sendResult eventType eventData _ hcreate⟩

set_option maxRecDepth 1000000 in
/-- Witness for C6 on the sample event data with the invalid email. -/
theorem sendReservationEmail_invalid_email_no_persist_witness :
    (jsTrim "uuid-1" ≠ "") ∧
    (jsTrim ({ sampleEventData with
      userEmail := "not-an-email" } : ReservationEventData).userId ≠ "") ∧
    (createEmailNotification
      (sendReservationEmailCreateParams "uuid-1" 2025 .ReservationCreated
        { sampleEventData with userEmail := "not-an-email" }) 10
      = .error ⟨"userEmail",
          "Notification userEmail must be a valid email address."⟩ ∧
    sendReservationEmail "uuid-1" 2025 10 20 id
        { success := true, messageId := none, error := none }
        .ReservationCreated
        { sampleEventData with userEmail := "not-an-email" } =
      ({ success := false, notification := none,
         error := some "Notification userEmail must be a valid email address." },
       [])) :=
  ⟨by decide, by decide,
   sendReservationEmail_invalid_email_no_persist "uuid-1" 2025 10 20 id
     { success := true, messageId := none, error := none }
     .ReservationCreated { sampleEventData with userEmail := "not-an-email" }
     (by decide) (by decide) rfl⟩
